import Mathlib

/-!
Verification of the VFD_Editor text-buffer / cursor / viewport / differential-render engine.

The definitions below are a shallow embedding of `VFDEditor.py` (class `VFDWordProcessor`) and
`file_ops.py` (class `FileOperations`).  Bytes are modelled as `Nat`, the 16 KB `bytearray`
buffer as a `List Nat`, display frames as `List Char`, and the calls made to the VFD display
sink as an explicit event list.  External effects (the keyboard, the filesystem, the GPIO bus)
enter as explicit parameters: the outcome of an `open`/`write` call, the decoded content of a
loaded file, an interactively prompted filename.
-/

namespace VFDEditor

/-- A call to the display sink: `vfd.set_cursor(pos)` or `vfd.write` of a single character
(the only `write` shape issued from inside `update_display`). -/
inductive VFDEvent where
  | setCursor (pos : Nat)
  | write (c : Char)
  deriving DecidableEq, Repr

/-- The mutable state of `VFDWordProcessor` (VFDEditor.py, `__init__`, lines 18-41).
`buffer` models the `bytearray` (its length can change, because `FileOperations.open_file`
replaces it wholesale via slice assignment).  `open_filename` is `none` for Python's falsy
names (`""` initially, `None` after a failed save), which the code treats alike. -/
structure EditorState where
  buffer : List Nat
  buffer_pos : Nat
  visible_start : Nat
  visible_end : Nat
  visible_text : List Char
  visible_old : List Char
  cursor_pos : Nat
  buffer_altered : Bool
  insert_mode : Bool
  open_filename : Option String
  deriving DecidableEq, Repr

/-- The state built by `VFDWordProcessor.__init__`: a zero-filled 16384-byte buffer, cursor at
the origin, an 80-space frame on the display, overwrite mode. -/
def initialState : EditorState :=
  { buffer := List.replicate 16384 0
    buffer_pos := 0
    visible_start := 0
    visible_end := 80
    visible_text := List.replicate 80 ' '
    visible_old := List.replicate 80 ' '
    cursor_pos := 0
    buffer_altered := false
    insert_mode := false
    open_filename := none }

/-- `calculate_used_buffer` (VFDEditor.py lines 189-191): the number of non-zero bytes in the
whole buffer, `sum(byte != 0 for byte in self.buffer)`. -/
def calculate_used_buffer (buffer : List Nat) : Nat :=
  buffer.countP (fun b => b != 0)

/-- `update_cursor_position` (VFDEditor.py lines 193-209): clamp `buffer_pos` to the used size,
recompute the on-screen cursor as `buffer_pos - visible_start`, clamp a negative result to 0,
and when the cursor passes column 79 shift the visible window down by one row (a single shift
of 40, not a loop).  The difference is computed over `Int` to match Python arithmetic.  The
trailing `vfd.set_cursor` device call just sends the stored `cursor_pos`. -/
def update_cursor_position (st : EditorState) : EditorState :=
  let buffer_size := calculate_used_buffer st.buffer
  let bp := if st.buffer_pos > buffer_size then buffer_size else st.buffer_pos
  let c : Int := (bp : Int) - (st.visible_start : Int)
  if c < 0 then
    { st with buffer_pos := bp, cursor_pos := 0 }
  else if c > 79 then
    { st with
      buffer_pos := bp,
      visible_start := st.visible_start + 40,
      visible_end := st.visible_end + 40,
      cursor_pos := ((bp : Int) - ((st.visible_start : Int) + 40)).toNat }
  else
    { st with buffer_pos := bp, cursor_pos := c.toNat }

/-- `insert_char` (VFDEditor.py lines 115-133).  Guard: `buffer_pos < len(buffer) - 1`.  In
insert mode the slice assignment `buffer[pos+1:] = buffer[pos:-1]` keeps the prefix up to and
including position `pos` and shifts the rest right by one, dropping the last byte; then the
character is written at `pos` and `buffer_pos` advances.  `update_cursor_position` runs whether
or not the character was accepted. -/
def insert_char (st : EditorState) (ch : Nat) : EditorState :=
  let st' :=
    if (st.buffer_pos : Int) < (st.buffer.length : Int) - 1 then
      let buf0 :=
        if st.insert_mode then
          st.buffer.take (st.buffer_pos + 1) ++
            (st.buffer.take (st.buffer.length - 1)).drop st.buffer_pos
        else st.buffer
      { st with buffer := buf0.set st.buffer_pos ch, buffer_pos := st.buffer_pos + 1 }
    else st
  update_cursor_position st'

/-- `delete_char` (VFDEditor.py lines 135-140): if `buffer_pos > 0`, step back one position and
zero that cell in place — the bytes after it are not shifted — then update the cursor;
at `buffer_pos == 0` nothing happens at all. -/
def delete_char (st : EditorState) : EditorState :=
  if st.buffer_pos > 0 then
    update_cursor_position
      { st with
        buffer_pos := st.buffer_pos - 1,
        buffer := st.buffer.set (st.buffer_pos - 1) 0 }
  else st

/-- `move_cursor_left` (VFDEditor.py lines 175-179). -/
def move_cursor_left (st : EditorState) : EditorState :=
  if st.buffer_pos > 0 then
    update_cursor_position { st with buffer_pos := st.buffer_pos - 1 }
  else st

/-- `move_cursor_right` (VFDEditor.py lines 182-186). -/
def move_cursor_right (st : EditorState) : EditorState :=
  if (st.buffer_pos : Int) < (st.buffer.length : Int) - 1 then
    update_cursor_position { st with buffer_pos := st.buffer_pos + 1 }
  else st

/-- The per-byte mapping inside `update_display` (VFDEditor.py line 220): a newline byte
renders as a backtick (`Char.ofNat 96`), the NUL sentinel as a space, anything else as its
ASCII character. -/
def displayChar (b : Nat) : Char :=
  if b = 10 then Char.ofNat 96 else if b = 0 then ' ' else Char.ofNat b

/-- `update_display` (VFDEditor.py lines 212-235).  Builds the frame from the visible window,
iterating offsets in `[visible_start, min(visible_end, buffer_size))` where `buffer_size` is the
non-zero count, pads it with spaces to at least 80 characters, emits a set-cursor/write pair for
every index whose character differs from the previously shown frame `visible_old` (or lies past
its end), stores the new frame in both `visible_text` and `visible_old`, and finally parks the
hardware cursor at `cursor_pos`.  Returns the new state together with the display-sink calls in
the order they are issued. -/
def update_display (st : EditorState) : EditorState × List VFDEvent :=
  let buffer_size := calculate_used_buffer st.buffer
  let hi := min st.visible_end buffer_size
  let text := (List.range' st.visible_start (hi - st.visible_start)).map
    (fun i => displayChar (st.buffer.getD i 0))
  let padded := text ++ List.replicate (80 - text.length) ' '
  let diffs := padded.enum.filter
    (fun p => decide (st.visible_old.length ≤ p.1) || (st.visible_old.getD p.1 ' ' != p.2))
  let evs := diffs.flatMap (fun p => [VFDEvent.setCursor p.1, VFDEvent.write p.2])
  ({ st with visible_text := padded, visible_old := padded },
   evs ++ [VFDEvent.setCursor st.cursor_pos])

/-- `bytearray.find(0)` as used by `FileOperations.save_file` (file_ops.py lines 52-54): the
index of the first zero byte, or `-1` when there is none. -/
def find0 : List Nat → Int
  | [] => -1
  | b :: rest => if b = 0 then 0 else if find0 rest < 0 then -1 else find0 rest + 1

/-- The slice `buffer[: buffer.find(0)]` computed by `FileOperations.save_file`: the bytes
strictly before the first zero byte.  When no zero byte exists, Python's `find` returns `-1`
and the slice `buffer[:-1]` drops the final byte instead. -/
def save_used_slice (buffer : List Nat) : List Nat :=
  let idx := find0 buffer
  if idx < 0 then buffer.take (buffer.length - 1) else buffer.take idx.toNat

/-- A Python exception escaping the `try` block of `FileOperations.save_file`: only
`IOError`/`OSError` are caught there, so the `UnicodeDecodeError` raised by
`used_buffer.decode("ascii")` propagates to the caller. -/
inductive PyExc where
  | unicodeDecodeError
  deriving DecidableEq, Repr

/-- `FileOperations.save_file` (file_ops.py lines 47-71).  `filename` is the argument passed by
the caller; when it is falsy the interactively prompted name `prompted` is used (still possibly
`none` when the user typed nothing, in which case the function returns `None` without writing).
`io_ok` is the outcome of the external `open` call: on `False` the raised `IOError`/`OSError`
is caught and the function returns `None`.  When the file opens, the slice before the first
zero byte is decoded as ASCII — a byte ≥ 128 raises `UnicodeDecodeError`, which no handler in
this function catches.  On success the filename is returned. -/
def FileOperations_save_file (buffer : List Nat) (filename : Option String)
    (prompted : Option String) (io_ok : Bool) : Except PyExc (Option String) :=
  let used := save_used_slice buffer
  let fn := match filename with
    | none => prompted
    | some f => some f
  match fn with
  | none => Except.ok none
  | some f =>
      if io_ok then
        if used.all (fun b => decide (b < 128)) then Except.ok (some f)
        else Except.error PyExc.unicodeDecodeError
      else Except.ok none

/-- `VFDWordProcessor.save_file` (VFDEditor.py lines 267-271): delegate to
`FileOperations.save_file`, store whatever comes back (the filename on success, `None` on a
caught failure) and unconditionally clear `buffer_altered`.  There is no handler here, so an
exception from the file layer propagates. -/
def VFDWordProcessor_save_file (st : EditorState) (prompted : Option String) (io_ok : Bool) :
    Except PyExc EditorState :=
  match FileOperations_save_file st.buffer st.open_filename prompted io_ok with
  | Except.error e => Except.error e
  | Except.ok fn => Except.ok { st with open_filename := fn, buffer_altered := false }

/-- The Ctrl-S branch of `VFDWordProcessor.run` (VFDEditor.py lines 61-64): call `save_file`,
then clear `buffer_altered` once more.  `run` has no exception handler either, so an escaping
exception ends the loop — and with it the process, since `run` is the whole program. -/
def run_ctrl_s (st : EditorState) (prompted : Option String) (io_ok : Bool) :
    Except PyExc EditorState :=
  match VFDWordProcessor_save_file st prompted io_ok with
  | Except.error e => Except.error e
  | Except.ok st1 => Except.ok { st1 with buffer_altered := false }

/-- `FileOperations.open_file` (file_ops.py lines 73-91) composed with
`VFDWordProcessor.open_file` (VFDEditor.py lines 273-278).  `result` is `some (name, content)`
when the named file exists and reads cleanly (with `content` the ASCII bytes of its text) and
`none` when the name is missing, the file does not exist, or reading fails; in the `none` cases
the buffer is untouched.  On success `buffer[:] = bytearray(content.encode("ascii"))` replaces
the editor's buffer with exactly the loaded bytes — the bytearray is resized, not padded or
truncated to 16384.  Afterwards the editor sets `buffer_pos` to the non-zero count of the
(possibly replaced) buffer and clears `buffer_altered`. -/
def VFDWordProcessor_open_file (st : EditorState) (result : Option (String × List Nat)) :
    EditorState :=
  let st1 := match result with
    | none => { st with open_filename := none }
    | some (fn, content) => { st with buffer := content, open_filename := some fn }
  { st1 with buffer_pos := calculate_used_buffer st1.buffer, buffer_altered := false }

/-- The spec's prefix-density invariant: the non-zero cells form an unbroken prefix, i.e. a
position of the buffer holds a non-zero byte exactly when it lies below the non-zero count
(so all content occupies `[0, used_length)` and everything after is zero). -/
def PrefixDense (l : List Nat) : Prop :=
  ∀ k < l.length, (k < calculate_used_buffer l ↔ l.getD k 0 ≠ 0)

/-! ### Helper lemmas -/

theorem update_cursor_position_buffer (st : EditorState) :
    (update_cursor_position st).buffer = st.buffer := by
  unfold update_cursor_position
  dsimp only
  split_ifs <;> rfl

theorem update_cursor_position_buffer_pos (st : EditorState) :
    (update_cursor_position st).buffer_pos
      = min st.buffer_pos (calculate_used_buffer st.buffer) := by
  unfold update_cursor_position
  dsimp only
  split_ifs <;> dsimp only <;> omega

theorem update_cursor_position_visible_start (st : EditorState) :
    (update_cursor_position st).visible_start =
      if ((min st.buffer_pos (calculate_used_buffer st.buffer) : Int)
          - (st.visible_start : Int) > 79)
      then st.visible_start + 40 else st.visible_start := by
  unfold update_cursor_position
  dsimp only
  split_ifs <;> dsimp only <;> omega

theorem update_cursor_position_in_window (st : EditorState)
    (h1 : st.buffer_pos ≤ calculate_used_buffer st.buffer)
    (h2 : st.visible_start ≤ st.buffer_pos)
    (h3 : st.buffer_pos - st.visible_start ≤ 79) :
    update_cursor_position st
      = { st with cursor_pos := st.buffer_pos - st.visible_start } := by
  unfold update_cursor_position
  dsimp only
  rw [if_neg (by omega : ¬ st.buffer_pos > calculate_used_buffer st.buffer),
    if_neg (by omega : ¬ ((st.buffer_pos : Int) - (st.visible_start : Int) < 0)),
    if_neg (by omega : ¬ ((st.buffer_pos : Int) - (st.visible_start : Int) > 79))]
  congr 1
  omega

theorem delete_char_of_pos (st : EditorState) (h : 0 < st.buffer_pos) :
    delete_char st = update_cursor_position
      { st with
        buffer_pos := st.buffer_pos - 1,
        buffer := st.buffer.set (st.buffer_pos - 1) 0 } := by
  unfold delete_char
  rw [if_pos h]

/-! ### C1 — `delete_char` does not shift; it zeroes the cell in place -/

/-- A state exercising `delete_char` in mid-document: the 16 KB buffer holds "AB" followed by
zeros and the cursor sits between the two letters (offset 1, used length 2). -/
def midDeleteState : EditorState :=
  { initialState with buffer := 65 :: 66 :: List.replicate 16382 0, buffer_pos := 1 }

/-- C1: the claim fails on the code.  Backspacing with the cursor between 'A' and 'B' does not
shift the cells of `[offset, used_length)` left: `delete_char` zeroes the cell before the
cursor in place, producing `[NUL, 'B', 0, ...]` — a hole — where the claim requires
`['B', NUL, 0, ...]` and a decremented used length.  The `offset == 0` half of the claim does
hold: at `buffer_pos = 0` the operation is a strict no-op on the whole state. -/
theorem delete_char_zeroes_in_place :
    (delete_char midDeleteState).buffer = 0 :: 66 :: List.replicate 16382 0
    ∧ delete_char { midDeleteState with buffer_pos := 0 }
        = { midDeleteState with buffer_pos := 0 } := by
  constructor
  · rw [delete_char_of_pos midDeleteState (by norm_num [midDeleteState]),
      update_cursor_position_buffer]
    rfl
  · rfl

/-! ### C3 — loading resizes the buffer instead of padding to capacity -/

/-- C3: the claim fails on the code (the spec itself flags this variant as a defect): loading a
5-byte file replaces the 16384-cell buffer with a 5-cell one — the slice assignment
`buffer[:] = bytearray(content.encode("ascii"))` resizes the bytearray to the loaded byte
count instead of zero-padding (or truncating) it to the fixed capacity. -/
theorem open_file_resizes_buffer :
    initialState.buffer.length = 16384
    ∧ (VFDWordProcessor_open_file initialState
        (some ("HELLO.txt", [72, 69, 76, 76, 79]))).buffer.length = 5 := by
  constructor
  · rw [show initialState.buffer = List.replicate 16384 0 from rfl, List.length_replicate]
  · rfl

/-! ### C5 — a failed save still clears the "altered" flag -/

/-- An altered session whose document already has a name, used to exercise the save path. -/
def alteredState : EditorState :=
  { initialState with buffer_altered := true, open_filename := some "doc.txt" }

/-- C5 counterexample: the claim fails on the code.  A save that fails with a caught I/O error
(the file layer returns `None`) still clears `buffer_altered`, because
`VFDWordProcessor.save_file` resets the flag unconditionally after calling the file layer —
so the quit-confirmation prompt is no longer gated on. -/
theorem failed_save_clears_altered_flag :
    alteredState.buffer_altered = true
    ∧ VFDWordProcessor_save_file alteredState none false
        = Except.ok { alteredState with open_filename := none, buffer_altered := false } :=
  ⟨rfl, rfl⟩

/-- C5 amended: `buffer_altered` is cleared unconditionally: whenever the save path returns at
all — successfully or after a caught I/O failure — the resulting state has
`buffer_altered = false`, regardless of whether anything was written. -/
theorem save_always_clears_altered_flag (st : EditorState) (prompted : Option String)
    (io_ok : Bool) (st' : EditorState)
    (h : VFDWordProcessor_save_file st prompted io_ok = Except.ok st') :
    st'.buffer_altered = false := by
  unfold VFDWordProcessor_save_file at h
  cases hres : FileOperations_save_file st.buffer st.open_filename prompted io_ok with
  | error e => rw [hres] at h; cases h
  | ok fn => rw [hres] at h; cases h; rfl

/-- Witness for C5's amended theorem at a concrete failed save. -/
theorem save_always_clears_altered_flag_witness :
    VFDWordProcessor_save_file alteredState none false
      = Except.ok { alteredState with open_filename := none, buffer_altered := false }
    ∧ ({ alteredState with open_filename := none, buffer_altered := false } :
        EditorState).buffer_altered = false :=
  ⟨rfl, save_always_clears_altered_flag alteredState none false _ rfl⟩

/-! ### C6 — a non-ASCII byte on save raises an uncaught exception -/

/-- An altered, named session whose used region starts with the non-ASCII byte 200. -/
def nonAsciiState : EditorState :=
  { initialState with
    buffer := 200 :: List.replicate 16383 0,
    buffer_pos := 1,
    buffer_altered := true,
    open_filename := some "doc.txt" }

/-- C6 counterexample: the claim fails on the code.  Saving a buffer whose used region holds
the non-ASCII byte 200 makes `used_buffer.decode("ascii")` raise `UnicodeDecodeError`; the
`try` in `FileOperations.save_file` catches only `IOError`/`OSError`, so the exception escapes
`save_file` and the Ctrl-S branch of `run` — it is not surfaced as a non-fatal save failure,
and the loop (hence the process) terminates on a path other than the explicit quit command. -/
theorem non_ascii_save_raises :
    run_ctrl_s nonAsciiState none true = Except.error PyExc.unicodeDecodeError := rfl

/-- C6 amended: with a resolvable filename and a working file handle, a byte ≥ 128 anywhere in
the slice that save extracts makes the whole Ctrl-S path return the uncaught
`UnicodeDecodeError` rather than a caught save failure.  The buffer itself is indeed left
untouched (the save path never writes the state), but the exception propagates out of the
core, whose `run` loop has no handler. -/
theorem non_ascii_save_propagates (st : EditorState) (prompted : Option String) (f : String)
    (hf : st.open_filename = some f)
    (b : Nat) (hb : b ∈ save_used_slice st.buffer) (hge : 128 ≤ b) :
    run_ctrl_s st prompted true = Except.error PyExc.unicodeDecodeError := by
  have hall : (save_used_slice st.buffer).all (fun b => decide (b < 128)) = false := by
    rw [← Bool.not_eq_true, List.all_eq_true]
    intro hAll
    have hb' := hAll b hb
    simp only [decide_eq_true_eq] at hb'
    omega
  unfold run_ctrl_s VFDWordProcessor_save_file FileOperations_save_file
  rw [hf]
  simp [hall]

/-! ### C2 — the prefix-density invariant is not preserved -/

theorem calculate_used_buffer_cons (b : Nat) (l : List Nat) :
    calculate_used_buffer (b :: l)
      = calculate_used_buffer l + if b = 0 then 0 else 1 := by
  unfold calculate_used_buffer
  rw [List.countP_cons]
  by_cases hb : b = 0 <;> simp [hb]

theorem calculate_used_buffer_replicate_zero (n : Nat) :
    calculate_used_buffer (List.replicate n 0) = 0 := by
  induction n with
  | zero => rfl
  | succ n ih =>
      rw [List.replicate_succ, calculate_used_buffer_cons, ih]
      norm_num

theorem insert_char_step (st : EditorState) (ch : Nat)
    (hm : st.insert_mode = false)
    (hg : (st.buffer_pos : Int) < (st.buffer.length : Int) - 1)
    (h1 : st.buffer_pos + 1 ≤ calculate_used_buffer (st.buffer.set st.buffer_pos ch))
    (h2 : st.visible_start ≤ st.buffer_pos + 1)
    (h3 : st.buffer_pos + 1 - st.visible_start ≤ 79) :
    insert_char st ch = { st with
      buffer := st.buffer.set st.buffer_pos ch,
      buffer_pos := st.buffer_pos + 1,
      cursor_pos := st.buffer_pos + 1 - st.visible_start } := by
  unfold insert_char
  dsimp only
  rw [if_pos hg, if_neg (by simp [hm] : ¬ (st.insert_mode = true))]
  exact update_cursor_position_in_window _ h1 h2 h3

theorem move_cursor_left_step (st : EditorState)
    (hp : 0 < st.buffer_pos)
    (h1 : st.buffer_pos - 1 ≤ calculate_used_buffer st.buffer)
    (h2 : st.visible_start ≤ st.buffer_pos - 1)
    (h3 : st.buffer_pos - 1 - st.visible_start ≤ 79) :
    move_cursor_left st = { st with
      buffer_pos := st.buffer_pos - 1,
      cursor_pos := st.buffer_pos - 1 - st.visible_start } := by
  unfold move_cursor_left
  rw [if_pos hp]
  exact update_cursor_position_in_window _ h1 h2 h3

/-- Editor state after typing 'A' from the initial state (first step of the C2 trace). -/
def stTypedA : EditorState :=
  { initialState with
    buffer := 65 :: 0 :: List.replicate 16382 0, buffer_pos := 1, cursor_pos := 1 }

/-- Editor state after typing 'A' then 'B' (second step of the C2 trace). -/
def stTypedAB : EditorState :=
  { initialState with
    buffer := 65 :: 66 :: List.replicate 16382 0, buffer_pos := 2, cursor_pos := 2 }

/-- Editor state after typing 'A', 'B' and moving the cursor left once. -/
def stTypedABLeft : EditorState :=
  { initialState with
    buffer := 65 :: 66 :: List.replicate 16382 0, buffer_pos := 1, cursor_pos := 1 }

/-- C2: the claim fails on the code.  From the zero-filled 16 KB buffer, in overwrite mode:
type 'A', type 'B', move the cursor left once, and backspace.  `delete_char` zeroes cell 0 in
place instead of shifting, leaving the buffer `[0, 'B', 0, ...]`: cell 1 is non-zero while
cell 0 is zero, so the non-zero cells no longer occupy an unbroken prefix — this sequence of
editor operations does not preserve prefix-density. -/
theorem prefix_density_not_preserved :
    ¬ PrefixDense (delete_char (move_cursor_left
        (insert_char (insert_char initialState 65) 66))).buffer := by
  have hc1 : calculate_used_buffer (65 :: 0 :: List.replicate 16382 0) = 1 := by
    rw [calculate_used_buffer_cons, calculate_used_buffer_cons,
      calculate_used_buffer_replicate_zero]
    norm_num
  have hc2 : calculate_used_buffer (65 :: 66 :: List.replicate 16382 0) = 2 := by
    rw [calculate_used_buffer_cons, calculate_used_buffer_cons,
      calculate_used_buffer_replicate_zero]
    norm_num
  have hc3 : calculate_used_buffer (0 :: 66 :: List.replicate 16382 0) = 1 := by
    rw [calculate_used_buffer_cons, calculate_used_buffer_cons,
      calculate_used_buffer_replicate_zero]
    norm_num
  have e1 : insert_char initialState 65 = stTypedA := by
    have h := insert_char_step initialState 65 rfl
      (by rw [show initialState.buffer = List.replicate 16384 0 from rfl,
            List.length_replicate, show initialState.buffer_pos = 0 from rfl]
          norm_num)
      (by rw [show initialState.buffer.set initialState.buffer_pos 65
              = 65 :: 0 :: List.replicate 16382 0 from rfl,
            hc1, show initialState.buffer_pos = 0 from rfl])
      (by rw [show initialState.visible_start = 0 from rfl]; exact Nat.zero_le _)
      (by rw [show initialState.buffer_pos = 0 from rfl,
            show initialState.visible_start = 0 from rfl]
          norm_num)
    rw [h]; rfl
  have e2 : insert_char stTypedA 66 = stTypedAB := by
    have h := insert_char_step stTypedA 66 rfl
      (by rw [show stTypedA.buffer = 65 :: 0 :: List.replicate 16382 0 from rfl,
            List.length_cons, List.length_cons, List.length_replicate,
            show stTypedA.buffer_pos = 1 from rfl]
          norm_num)
      (by rw [show stTypedA.buffer.set stTypedA.buffer_pos 66
              = 65 :: 66 :: List.replicate 16382 0 from rfl,
            hc2, show stTypedA.buffer_pos = 1 from rfl])
      (by rw [show stTypedA.visible_start = 0 from rfl]; exact Nat.zero_le _)
      (by rw [show stTypedA.buffer_pos = 1 from rfl,
            show stTypedA.visible_start = 0 from rfl]
          norm_num)
    rw [h]; rfl
  have e3 : move_cursor_left stTypedAB = stTypedABLeft := by
    have h := move_cursor_left_step stTypedAB
      (by rw [show stTypedAB.buffer_pos = 2 from rfl]; norm_num)
      (by rw [show stTypedAB.buffer = 65 :: 66 :: List.replicate 16382 0 from rfl,
            hc2, show stTypedAB.buffer_pos = 2 from rfl]
          norm_num)
      (by rw [show stTypedAB.visible_start = 0 from rfl]; exact Nat.zero_le _)
      (by rw [show stTypedAB.buffer_pos = 2 from rfl,
            show stTypedAB.visible_start = 0 from rfl]
          norm_num)
    rw [h]; rfl
  have e4 : (delete_char stTypedABLeft).buffer = 0 :: 66 :: List.replicate 16382 0 := by
    rw [delete_char_of_pos stTypedABLeft
        (by rw [show stTypedABLeft.buffer_pos = 1 from rfl]; norm_num),
      update_cursor_position_buffer]
    rfl
  rw [e1, e2, e3, e4]
  intro h
  have hk := h 0
    (by rw [List.length_cons, List.length_cons, List.length_replicate]; norm_num)
  rw [hc3] at hk
  exact (hk.mp (by norm_num)) rfl

/-! ### C7 — viewport reconciliation is not idempotent in general -/

/-- A state whose cursor sits 160 cells past the window start (such a state is reached, e.g.,
by opening a 160-byte document: `open_file` sets `buffer_pos` to the non-zero count while
`visible_start` stays 0). -/
def farCursorState : EditorState :=
  { initialState with buffer := List.replicate 160 65, buffer_pos := 160 }

set_option maxRecDepth 40000 in
/-- C7 counterexample: the claim fails on the code.  `update_cursor_position` shifts the window
by a single row (40 cells) per call instead of by whole multiples until the cursor is inside,
so with the cursor 160 cells past `window_start` the first call moves `window_start` to 40 and
a second call with unchanged inputs moves it again (to 80). -/
theorem reconcile_not_idempotent :
    (update_cursor_position (update_cursor_position farCursorState)).visible_start
      ≠ (update_cursor_position farCursorState).visible_start := by decide

/-- C7 amended: the reconcile step shifts `window_start` by at most one row (40 cells) per
call, so consecutive calls with unchanged inputs are guaranteed to leave `window_start` fixed
on the second call only when the cursor is within 119 cells of the window start — in
particular whenever the cursor is at most one row below the window. -/
theorem reconcile_idempotent_when_cursor_near (st : EditorState)
    (h : st.buffer_pos ≤ st.visible_start + 119) :
    (update_cursor_position (update_cursor_position st)).visible_start
      = (update_cursor_position st).visible_start := by
  have hb := update_cursor_position_buffer st
  have hp := update_cursor_position_buffer_pos st
  have h1 := update_cursor_position_visible_start st
  have h2 := update_cursor_position_visible_start (update_cursor_position st)
  rw [hb, hp] at h2
  rw [h1] at h2
  rw [h2, h1]
  split_ifs <;> omega

/-- A state with the cursor exactly 100 cells past the window start, within the range where
reconciliation stabilizes after one call. -/
def nearCursorState : EditorState :=
  { initialState with buffer := List.replicate 100 65, buffer_pos := 100 }

/-- Witness for C7's amended theorem at a concrete state. -/
theorem reconcile_idempotent_when_cursor_near_witness :
    nearCursorState.buffer_pos ≤ nearCursorState.visible_start + 119
    ∧ (update_cursor_position (update_cursor_position nearCursorState)).visible_start
        = (update_cursor_position nearCursorState).visible_start :=
  ⟨by decide, reconcile_idempotent_when_cursor_near nearCursorState (by decide)⟩

/-! ### C4 — the capacity boundary is off by one -/

theorem insert_char_buffer_of_ge (st : EditorState) (ch : Nat)
    (h : ¬ ((st.buffer_pos : Int) < (st.buffer.length : Int) - 1)) :
    (insert_char st ch).buffer = st.buffer := by
  unfold insert_char
  dsimp only
  rw [if_neg h, update_cursor_position_buffer]

theorem insert_char_buffer_overwrite (st : EditorState) (ch : Nat)
    (hm : st.insert_mode = false)
    (h : (st.buffer_pos : Int) < (st.buffer.length : Int) - 1) :
    (insert_char st ch).buffer = st.buffer.set st.buffer_pos ch := by
  unfold insert_char
  dsimp only
  rw [if_pos h, update_cursor_position_buffer]
  dsimp only
  rw [if_neg (by simp [hm] : ¬ (st.insert_mode = true))]

/-- A prefix-dense buffer filled in 16383 of its 16384 cells ('A' everywhere except the last),
with the cursor at offset 16383 = capacity - 1, in overwrite mode. -/
def almostFullState : EditorState :=
  { initialState with
    buffer := List.replicate 16383 65 ++ [0],
    buffer_pos := 16383 }

theorem almostFullState_buffer_length : almostFullState.buffer.length = 16384 := by
  rw [show almostFullState.buffer = List.replicate 16383 65 ++ [0] from rfl,
    List.length_append, List.length_replicate]
  rfl

/-- C4 counterexample: the claim fails on the code.  With the buffer prefix-dense at
`used_length = capacity - 1 = 16383` and the cursor at offset 16383 in overwrite mode, the
typed character is dropped: the guard `buffer_pos < len(buffer) - 1` is false at 16383, so the
buffer is unchanged and cell 16383 still holds 0 — where the claim requires the byte to be
written and `used_length` to reach capacity. -/
theorem typing_at_last_cell_dropped :
    (insert_char almostFullState 65).buffer = almostFullState.buffer
    ∧ almostFullState.buffer.getD 16383 0 = 0 := by
  constructor
  · refine insert_char_buffer_of_ge _ _ ?_
    rw [almostFullState_buffer_length,
      show almostFullState.buffer_pos = 16383 from rfl]
    norm_num
  · rw [show almostFullState.buffer = List.replicate 16383 65 ++ [0] from rfl,
      List.getD_eq_getElem?_getD, List.getElem?_append, List.length_replicate,
      if_neg (by norm_num : ¬ (16383 < 16383))]
    rfl

/-- C4 amended: with a full-capacity 16384-cell buffer in overwrite mode, typing at
`cursor_offset = capacity - 1 = 16383` is dropped without touching the buffer — the guard
demands `cursor_offset < capacity - 1`, so the last cell can never be written and the non-zero
count can never reach capacity — while typing at any offset below 16383 writes the byte at the
cursor position. -/
theorem typing_capacity_boundary (st : EditorState) (ch : Nat)
    (hlen : st.buffer.length = 16384) (hm : st.insert_mode = false) :
    (st.buffer_pos = 16383 → (insert_char st ch).buffer = st.buffer)
    ∧ (st.buffer_pos < 16383 →
        (insert_char st ch).buffer = st.buffer.set st.buffer_pos ch) := by
  constructor
  · intro hp
    exact insert_char_buffer_of_ge st ch (by rw [hlen, hp]; norm_num)
  · intro hp
    exact insert_char_buffer_overwrite st ch hm (by rw [hlen]; omega)

/-- Witness for C4's amended theorem at the concrete almost-full buffer. -/
theorem typing_capacity_boundary_witness :
    almostFullState.buffer.length = 16384
    ∧ almostFullState.insert_mode = false
    ∧ (insert_char almostFullState 65).buffer = almostFullState.buffer :=
  ⟨almostFullState_buffer_length, rfl,
   (typing_capacity_boundary almostFullState 65 almostFullState_buffer_length rfl).1 rfl⟩

/-- Witness for C6's amended theorem at the concrete non-ASCII buffer. -/
theorem non_ascii_save_propagates_witness :
    nonAsciiState.open_filename = some "doc.txt"
    ∧ 200 ∈ save_used_slice nonAsciiState.buffer
    ∧ run_ctrl_s nonAsciiState none true = Except.error PyExc.unicodeDecodeError :=
  ⟨rfl, by decide,
   non_ascii_save_propagates nonAsciiState none "doc.txt" rfl 200 (by decide) (by decide)⟩

/-! ### C10 — save slices the buffer at the first zero byte -/

theorem find0_cons (b : Nat) (rest : List Nat) :
    find0 (b :: rest)
      = if b = 0 then 0 else if find0 rest < 0 then -1 else find0 rest + 1 := rfl

theorem find0_cases (l : List Nat) :
    (find0 l = -1 ∧ ∀ k < l.length, l.getD k 0 ≠ 0)
    ∨ (0 ≤ find0 l ∧ (find0 l).toNat < l.length
       ∧ l.getD (find0 l).toNat 1 = 0
       ∧ ∀ k < (find0 l).toNat, l.getD k 0 ≠ 0) := by
  induction l with
  | nil =>
      left
      refine ⟨rfl, ?_⟩
      intro k hk
      simp at hk
  | cons b rest ih =>
      by_cases hb : b = 0
      · right
        have hf : find0 (b :: rest) = 0 := by rw [find0_cons, if_pos hb]
        rw [hf]
        refine ⟨by norm_num, by simp, ?_, ?_⟩
        · rw [show ((0 : Int)).toNat = 0 from rfl, List.getD_cons_zero, hb]
        · intro k hk
          simp at hk
      · rcases ih with ⟨h1, h2⟩ | ⟨h1, h2, h3, h4⟩
        · left
          constructor
          · rw [find0_cons, if_neg hb, if_pos (by rw [h1]; norm_num)]
          · intro k hk
            cases k with
            | zero => rw [List.getD_cons_zero]; exact hb
            | succ k =>
                rw [List.getD_cons_succ]
                refine h2 k ?_
                rw [List.length_cons] at hk
                omega
        · right
          have hf : find0 (b :: rest) = find0 rest + 1 := by
            rw [find0_cons, if_neg hb, if_neg (by omega)]
          have ht : (find0 rest + 1).toNat = (find0 rest).toNat + 1 := by omega
          rw [hf, ht]
          refine ⟨by omega, ?_, ?_, ?_⟩
          · rw [List.length_cons]; omega
          · rw [List.getD_cons_succ]; exact h3
          · intro k hk
            cases k with
            | zero => rw [List.getD_cons_zero]; exact hb
            | succ k =>
                rw [List.getD_cons_succ]
                exact h4 k (by omega)

/-- C10: save determines the "used" portion of the buffer as the bytes strictly before the
first zero byte.  Whenever some zero byte (index `i`) precedes a non-zero byte (index `j`),
the slice that `FileOperations.save_file` writes stops at or before `i` — silently omitting
the non-zero content at `j` and everything after it — and the number of bytes written is
strictly smaller than the editor's own used length `calculate_used_buffer` (which counts
non-zero bytes over the whole buffer). -/
theorem save_slices_at_first_zero (buffer : List Nat) (i j : Nat)
    (hij : i < j) (hj : j < buffer.length)
    (hi0 : buffer.getD i 1 = 0) (hjnz : buffer.getD j 0 ≠ 0) :
    (save_used_slice buffer).length ≤ i
    ∧ (save_used_slice buffer).length < calculate_used_buffer buffer := by
  have hi : i < buffer.length := lt_trans hij hj
  rcases find0_cases buffer with ⟨h1, h2⟩ | ⟨h1, h2, h3, h4⟩
  · exfalso
    have hne := h2 i hi
    rw [List.getD_eq_getElem _ _ hi] at hi0 hne
    exact hne hi0
  · have hii : (find0 buffer).toNat ≤ i := by
      by_contra hcon
      push_neg at hcon
      have hne := h4 i hcon
      rw [List.getD_eq_getElem _ _ hi] at hi0 hne
      exact hne hi0
    have hslice : save_used_slice buffer = buffer.take (find0 buffer).toNat := by
      unfold save_used_slice
      rw [if_neg (by omega)]
    have hlen : (save_used_slice buffer).length = (find0 buffer).toNat := by
      rw [hslice, List.length_take]
      omega
    refine ⟨by omega, ?_⟩
    have hsplit : calculate_used_buffer buffer
        = List.countP (fun b => b != 0) (buffer.take j)
          + List.countP (fun b => b != 0) (buffer.drop j) := by
      unfold calculate_used_buffer
      rw [← List.countP_append, List.take_append_drop]
    have hdrop : 1 ≤ List.countP (fun b => b != 0) (buffer.drop j) := by
      rw [List.drop_eq_getElem_cons hj, List.countP_cons]
      have hbj : (buffer[j] != 0) = true := by
        rw [List.getD_eq_getElem _ _ hj] at hjnz
        simpa using hjnz
      rw [hbj]
      simp
    have htlen : (buffer.take (find0 buffer).toNat).length = (find0 buffer).toNat := by
      rw [List.length_take]
      omega
    have htake0 : List.countP (fun b => b != 0) (buffer.take (find0 buffer).toNat)
        = (find0 buffer).toNat := by
      have hall : List.countP (fun b => b != 0) (buffer.take (find0 buffer).toNat)
          = (buffer.take (find0 buffer).toNat).length := by
        rw [List.countP_eq_length]
        intro a ha
        rcases List.mem_iff_getElem.mp ha with ⟨k, hk, hval⟩
        have hk0 : k < (find0 buffer).toNat := by rw [htlen] at hk; exact hk
        have hknz := h4 k hk0
        rw [List.getElem_take] at hval
        rw [List.getD_eq_getElem _ _ (by omega : k < buffer.length)] at hknz
        rw [← hval]
        simpa using hknz
      rw [hall, htlen]
    have hsub : (buffer.take j).take (find0 buffer).toNat
        = buffer.take (find0 buffer).toNat := by
      rw [List.take_take]
      congr 1
      omega
    have hsplit2 : List.countP (fun b => b != 0) (buffer.take j)
        = List.countP (fun b => b != 0) ((buffer.take j).take (find0 buffer).toNat)
          + List.countP (fun b => b != 0) ((buffer.take j).drop (find0 buffer).toNat) := by
      rw [← List.countP_append, List.take_append_drop]
    rw [hlen, hsplit, hsplit2, hsub, htake0]
    omega

/-! ### C8 — frame building -/

theorem update_display_frame_length (st : EditorState)
    (hspan : st.visible_end ≤ st.visible_start + 80) :
    (update_display st).1.visible_text.length = 80 := by
  unfold update_display
  dsimp only
  rw [List.length_append, List.length_replicate, List.length_map, List.length_range']
  omega

theorem getD_append_left (l l' : List Char) (i : Nat) (h : i < l.length) (d : Char) :
    (l ++ l').getD i d = l.getD i d := by
  rw [List.getD_eq_getElem?_getD, List.getD_eq_getElem?_getD, List.getElem?_append,
    if_pos h]

theorem getD_append_right (l l' : List Char) (i : Nat) (h : l.length ≤ i) (d : Char) :
    (l ++ l').getD i d = l'.getD (i - l.length) d := by
  rw [List.getD_eq_getElem?_getD, List.getD_eq_getElem?_getD, List.getElem?_append,
    if_neg (by omega)]

theorem getD_map_range' (f : Nat → Char) (s n i : Nat) (d : Char) (hi : i < n) :
    ((List.range' s n).map f).getD i d = f (s + i) := by
  have hlen : i < ((List.range' s n).map f).length := by
    rw [List.length_map, List.length_range']
    exact hi
  rw [List.getD_eq_getElem _ _ hlen, List.getElem_map, List.getElem_range']
  norm_num

theorem getD_replicate_char (n : Nat) (a d : Char) (i : Nat) :
    (List.replicate n a).getD i d = if i < n then a else d := by
  rw [List.getD_eq_getElem?_getD, List.getElem?_replicate]
  by_cases h : i < n <;> simp [h]

instance (l : List Nat) : Decidable (PrefixDense l) := by
  unfold PrefixDense
  infer_instance

/-- A state whose buffer has a hole: cell 0 is zero, cell 1 holds 'B'.  (Such buffers are
reachable: the C2 trace produces one, and loading a file whose content starts with a zero-free
prefix is not even needed.)  The window is the fresh `[0, 80)` span. -/
def holeState : EditorState :=
  { initialState with buffer := [0, 66] }

set_option maxRecDepth 10000 in
/-- C8 counterexample: the claim fails on the code.  With buffer `[0, 'B']` and window
`[0, 80)`, the claim puts 'B' at display position `1 - window_start = 1`, but `update_display`
iterates only up to the non-zero count (here 1), so the rendered frame is 80 spaces — the 'B'
at offset 1 is not displayed at all. -/
theorem frame_truncated_at_nonzero_count :
    holeState.buffer.getD 1 0 = 66
    ∧ (update_display holeState).1.visible_text = List.replicate 80 ' ' := by
  refine ⟨rfl, ?_⟩
  decide

/-- C8 amended: the frame maps the byte at offset `window_start + i` to display position `i`
(`0x00` to a space, newline to a backtick, anything else to its ASCII character) only for
offsets below `min(window_end, used_count)`; every later display position is space-padded.
Under the prefix-density invariant the two descriptions agree, and the frame is exactly 80
characters: for a prefix-dense buffer and a full window, character `i` of the frame is the
display mapping of the byte at offset `window_start + i`. -/
theorem build_frame_spec (st : EditorState)
    (hd : PrefixDense st.buffer)
    (hspan : st.visible_end = st.visible_start + 80) :
    (update_display st).1.visible_text.length = 80
    ∧ ∀ i < 80, (update_display st).1.visible_text.getD i ' '
        = displayChar (st.buffer.getD (st.visible_start + i) 0) := by
  refine ⟨update_display_frame_length st (le_of_eq hspan), ?_⟩
  intro i hi
  unfold update_display
  dsimp only
  set n := calculate_used_buffer st.buffer with hn
  set t := (List.range' st.visible_start (min st.visible_end n - st.visible_start)).map
    (fun k => displayChar (st.buffer.getD k 0)) with ht
  have htl : t.length = min st.visible_end n - st.visible_start := by
    rw [ht, List.length_map, List.length_range']
  by_cases hcase : i < t.length
  · rw [getD_append_left t _ i hcase, ht,
      getD_map_range' (fun k => displayChar (st.buffer.getD k 0)) st.visible_start
        (min st.visible_end n - st.visible_start) i ' ' (by omega)]
  · rw [getD_append_right t _ i (by omega), getD_replicate_char,
      if_pos (by omega : i - t.length < 80 - t.length)]
    have hge : n ≤ st.visible_start + i := by
      rw [htl, hspan] at hcase
      omega
    have hz : st.buffer.getD (st.visible_start + i) 0 = 0 := by
      by_cases hlen2 : st.visible_start + i < st.buffer.length
      · by_contra hne
        have hlt := (hd (st.visible_start + i) hlen2).mpr hne
        omega
      · rw [List.getD_eq_getElem?_getD, List.getElem?_eq_none (by omega)]
        rfl
    rw [hz]
    rfl

/-- A prefix-dense buffer of 80 'A' bytes viewed through the fresh window. -/
def denseState : EditorState :=
  { initialState with buffer := List.replicate 80 65 }

set_option maxRecDepth 10000 in
/-- Witness for C8's amended theorem at a concrete dense buffer. -/
theorem build_frame_spec_witness :
    PrefixDense denseState.buffer
    ∧ denseState.visible_end = denseState.visible_start + 80
    ∧ (update_display denseState).1.visible_text.getD 0 ' '
        = displayChar (denseState.buffer.getD (denseState.visible_start + 0) 0) :=
  ⟨by decide, rfl, (build_frame_spec denseState (by decide) rfl).2 0 (by decide)⟩

/-! ### C9 — differential rendering -/

theorem update_display_events (st : EditorState) :
    (update_display st).2
      = (((update_display st).1.visible_text.enum.filter
            (fun p => decide (st.visible_old.length ≤ p.1)
              || (st.visible_old.getD p.1 ' ' != p.2))).flatMap
          (fun p => [VFDEvent.setCursor p.1, VFDEvent.write p.2]))
        ++ [VFDEvent.setCursor st.cursor_pos] := by
  unfold update_display
  dsimp only

theorem update_display_visible_old (st : EditorState) :
    (update_display st).1.visible_old = (update_display st).1.visible_text := by
  unfold update_display
  dsimp only

theorem diff_filter_drop_length (old new : List Char) (h : new.length ≤ old.length) :
    new.enum.filter
        (fun p => decide (old.length ≤ p.1) || (old.getD p.1 ' ' != p.2))
      = new.enum.filter (fun p => old.getD p.1 ' ' != p.2) := by
  apply List.filter_congr
  intro p hp
  have h1 : p.1 < new.length := List.fst_lt_of_mem_enum hp
  have h2 : ¬ (old.length ≤ p.1) := by omega
  simp [h2]

/-- C9: with the previous frame `visible_old` at its invariant length of 80 characters and the
window spanning at most 80 cells (so the freshly built frame is also exactly 80 characters),
the display-sink calls issued by `update_display` are precisely one set-cursor/write pair for
each index at which the new frame differs from the old frame, in index order and with no
writes for unchanged cells, followed by one final set-cursor at
`cursor_offset - window_start`; and the stored `visible_old` afterwards equals the new
frame. -/
theorem render_diff_events (st : EditorState)
    (hold : st.visible_old.length = 80)
    (hspan : st.visible_end ≤ st.visible_start + 80)
    (hcur : st.cursor_pos = st.buffer_pos - st.visible_start) :
    (update_display st).2
      = (((update_display st).1.visible_text.enum.filter
            (fun p => st.visible_old.getD p.1 ' ' != p.2)).flatMap
          (fun p => [VFDEvent.setCursor p.1, VFDEvent.write p.2]))
        ++ [VFDEvent.setCursor (st.buffer_pos - st.visible_start)]
    ∧ (update_display st).1.visible_old = (update_display st).1.visible_text := by
  constructor
  · rw [update_display_events st,
      diff_filter_drop_length st.visible_old (update_display st).1.visible_text
        (by rw [update_display_frame_length st hspan, hold]),
      hcur]
  · exact update_display_visible_old st

/-- A state showing "AB" and a newline through the fresh display. -/
def abNewlineState : EditorState :=
  { initialState with buffer := [65, 66, 10], buffer_pos := 3, cursor_pos := 3 }

/-- Witness for C9 at a concrete frame containing 'A', 'B' and a newline marker. -/
theorem render_diff_events_witness :
    abNewlineState.visible_old.length = 80
    ∧ abNewlineState.visible_end ≤ abNewlineState.visible_start + 80
    ∧ abNewlineState.cursor_pos = abNewlineState.buffer_pos - abNewlineState.visible_start
    ∧ ((update_display abNewlineState).2
        = (((update_display abNewlineState).1.visible_text.enum.filter
              (fun p => abNewlineState.visible_old.getD p.1 ' ' != p.2)).flatMap
            (fun p => [VFDEvent.setCursor p.1, VFDEvent.write p.2]))
          ++ [VFDEvent.setCursor
                (abNewlineState.buffer_pos - abNewlineState.visible_start)]
        ∧ (update_display abNewlineState).1.visible_old
            = (update_display abNewlineState).1.visible_text) :=
  ⟨by rw [show abNewlineState.visible_old = List.replicate 80 ' ' from rfl,
      List.length_replicate],
   by decide, rfl,
   render_diff_events abNewlineState
     (by rw [show abNewlineState.visible_old = List.replicate 80 ' ' from rfl,
        List.length_replicate])
     (by decide) rfl⟩

/-- Witness for C10 at the concrete buffer `[65, 0, 66]` ("A", NUL, "B"): save writes only the
1-byte slice "A" while the editor counts 2 used bytes. -/
theorem save_slices_at_first_zero_witness :
    ([65, 0, 66] : List Nat).getD 1 1 = 0
    ∧ ([65, 0, 66] : List Nat).getD 2 0 ≠ 0
    ∧ ((save_used_slice [65, 0, 66]).length ≤ 1
       ∧ (save_used_slice [65, 0, 66]).length < calculate_used_buffer [65, 0, 66]) :=
  ⟨rfl, by decide,
   save_slices_at_first_zero [65, 0, 66] 1 2 (by decide) (by decide) rfl (by decide)⟩

end VFDEditor
